import Mathlib

/-!
Shallow embedding of the tap-executor extraction pipeline
(`packages/tap-executor/src/tap_executor/sync.py` and
`packages/tap-executor/src/tap_executor/tap_runner.py`).

Lines emitted by the extractor process are modelled by their JSON parse
result (`Option Json`, `none` standing for a line on which `json.loads`
raises `JSONDecodeError`).  Python `None` and JSON `null` are both
`Json.null`, mirroring the fact that `dict.get` returns `None` both for an
absent key and for a key bound to `null`.  The filesystem documents owned
by one connection (config / catalog / checkpoint) are explicit state, and
the external collaborators (the extractor process, the storage backend)
are oracles recorded in the environment.
-/

namespace TapExec

/-- JSON-compatible values as produced by parsing one line of extractor
output.  Python `None` (JSON `null`) is `Json.null`. -/
inductive Json where
  | null
  | bool (b : Bool)
  | num (n : Int)
  | str (s : String)
  | arr (elems : List Json)
  | obj (fields : List (String × Json))

/-- First binding of a key in an object's field list (Python dicts built by
`json.loads` have unique keys, so first-match lookup agrees with them). -/
def lookupField : List (String × Json) → String → Option Json
  | [], _ => none
  | (k', v) :: rest, k => if k' = k then some v else lookupField rest k

/-- Python `message.get(k)`: the bound value when the key is present, else
`None`.  Only ever applied to objects in the embedded code paths (on any
other Python value `.get` raises `AttributeError`, which every caller in
the source catches and turns into a skip). -/
def Json.get (j : Json) (k : String) : Json :=
  match j with
  | .obj fields => (lookupField fields k).getD .null
  | _ => .null

/-- Python `message.get(k, default)`: the bound value when the key is
present (even when that value is `null`), else the default. -/
def Json.getD (j : Json) (k : String) (d : Json) : Json :=
  match j with
  | .obj fields => (lookupField fields k).getD d
  | _ => d

/-- Python `k in config` for a parsed JSON object. -/
def Json.hasKey (j : Json) (k : String) : Bool :=
  match j with
  | .obj fields => (lookupField fields k).isSome
  | _ => false

/-- Python dict assignment `config[k] = v`: replaces the first binding of
`k` in place, appending when the key is absent (insertion order kept). -/
def setField : List (String × Json) → String → Json → List (String × Json)
  | [], k, v => [(k, v)]
  | (k', v') :: rest, k, v =>
    if k' = k then (k', v) :: rest else (k', v') :: setField rest k v

/-- Python truthiness of a JSON-decoded value (`if last_state:`). -/
def Json.truthy : Json → Bool
  | .null => false
  | .bool b => b
  | .num n => n != 0
  | .str s => !s.isEmpty
  | .arr elems => !elems.isEmpty
  | .obj fields => !fields.isEmpty

/-- Does `msg.get "type"` equal the string `tag` under Python `==`?  A
missing or non-string discriminator compares unequal to every tag. -/
def isTypeTag (msg : Json) (tag : String) : Bool :=
  match msg.get "type" with
  | .str t => t == tag
  | _ => false

/-- JSON-decoded values that Python can use as dict keys (lists and dicts
are unhashable; using one as a key raises `TypeError`). -/
def isHashable : Json → Bool
  | .arr _ => false
  | .obj _ => false
  | _ => true

/-- Python `==` on hashable JSON-decoded values, as used for dict keys:
`True == 1` and `False == 0` hold, strings compare by content, `None` is
only equal to itself. -/
def keyNum : Json → Option Int
  | .bool b => some (if b then 1 else 0)
  | .num n => some n
  | _ => none

/-- Python key equality for `stream_counts` (see `keyNum`). -/
def pyKeyEq (a b : Json) : Bool :=
  match keyNum a, keyNum b with
  | some x, some y => x == y
  | _, _ =>
    match a, b with
    | .null, .null => true
    | .str s, .str t => s == t
    | _, _ => false

/-- Python `s.startswith(p)`. -/
def strStartsWith (s p : String) : Bool := p.data.isPrefixOf s.data

/-- Python `s.endswith(p)`. -/
def strEndsWith (s p : String) : Bool := p.data.isSuffixOf s.data

/-- One on-disk document of a connection: missing, present but unreadable
(an open/parse error), or present with parsed JSON content. -/
inductive FileContent where
  | absent
  | unreadable
  | json (j : Json)

/-- Whether `os.path.exists` is false for the document. -/
def FileContent.isAbsent : FileContent → Bool
  | .absent => true
  | _ => false

/-- Required keys checked by `validate_tap_config` (`tap_runner.py`). -/
def requiredFields : List String :=
  ["site_url", "consumer_key", "consumer_secret", "start_date"]

/-- `validate_tap_config` (`tap_runner.py` lines 203-265) as a function of
the config file's content, returning the boolean result together with the
file content after the call (the validator rewrites the file when it
appends the missing `Z` to `start_date`).  A non-object config, a
non-string `site_url` or a non-string `start_date` makes the Python code
raise inside the outer `try`, which returns `False`. -/
def validate_tap_config : FileContent → Bool × FileContent
  | .absent => (false, .absent)
  | .unreadable => (false, .unreadable)
  | .json config =>
    match config with
    | .obj fields =>
      let missing := requiredFields.filter (fun f => !(Json.obj fields).hasKey f)
      if !missing.isEmpty then (false, .json (.obj fields))
      else
        match (Json.obj fields).get "site_url" with
        | .str url =>
          if !(strStartsWith url "http://" || strStartsWith url "https://") then
            (false, .json (.obj fields))
          else
            match (Json.obj fields).get "start_date" with
            | .str d =>
              if !strEndsWith d "Z" then
                (true, .json (.obj (setField fields "start_date" (.str (d ++ "Z")))))
              else
                (true, .json (.obj fields))
            | _ => (false, .json (.obj fields))
        | _ => (false, .json (.obj fields))
    | _ => (false, .json config)

/-- Behavior of one `tap-woocommerce --discover` process invocation:
exit code, parse result of its captured standard output, and whether the
write of the catalog file succeeds (`generate_catalog`, `tap_runner.py`
lines 12-77). -/
structure DiscoveryProc where
  exitCode : Int
  output : Option Json
  writeOk : Bool

/-- `generate_catalog`: returns the boolean result and the catalog file
content it leaves behind (the raw output is written verbatim only after it
validated as JSON, so a successfully written file re-reads as that JSON). -/
def generate_catalog (p : DiscoveryProc) : Bool × FileContent :=
  if p.exitCode != 0 then (false, .absent)
  else
    match p.output with
    | none => (false, .absent)
    | some catalog => if p.writeOk then (true, .json catalog) else (false, .absent)

/-- Behavior of one extraction process invocation: the stdout lines read
during the streaming loop, the stdout lines drained by `communicate()`
after the process exited, the diagnostic-channel lines, and the exit
code (`run_tap_woocommerce`, `tap_runner.py` lines 79-201). -/
structure TapProc where
  configExists : Bool
  catalogGiven : Bool
  catalogExists : Bool
  stateGiven : Bool
  stateExists : Bool
  streamed : List (Option Json)
  drained : List (Option Json)
  stderrLines : List String
  exitCode : Int

/-- One step of the live classification done in the read loop of
`run_tap_woocommerce`: only a parseable JSON object line whose `type` is
`"STATE"` changes the running `last_state`, to `msg.get('value')` (which
is `None` when the `value` key is absent, wiping any earlier state). -/
def stateUpdate (acc : Json) (line : Option Json) : Json :=
  match line with
  | none => acc
  | some msg =>
    match msg with
    | .obj _ => if isTypeTag msg "STATE" then msg.get "value" else acc
    | _ => acc

/-- The `last_state` value accumulated over the streamed stdout lines
(initialized to `None`; lines drained after process exit are not fed to
this classification). -/
def tapLastState (streamed : List (Option Json)) : Json :=
  streamed.foldl stateUpdate .null

/-- Failure modes of `run_tap_woocommerce`.  `tapFailed` is the
`RuntimeError` raised on a non-zero exit code; its Python message embeds
the exit code and the newline-joined diagnostic lines. -/
inductive TapError where
  | configNotFound
  | catalogNotFound
  | tapFailed (exitCode : Int) (diagnostic : String)

/-- Result of `run_tap_woocommerce`: the collected stdout lines together
with the last observed state, or an error. -/
inductive TapResult where
  | error (e : TapError)
  | ok (outputLines : List (Option Json)) (lastState : Json)

/-- `run_tap_woocommerce`: checks the input files, runs the process to
completion, and fails with the exit code and diagnostic text when the exit
code is non-zero; on exit code 0 it returns the streamed lines followed by
the drained lines, and the last state observed while streaming. -/
def run_tap_woocommerce (p : TapProc) : TapResult :=
  if !p.configExists then .error .configNotFound
  else if p.catalogGiven && !p.catalogExists then .error .catalogNotFound
  else if p.exitCode != 0 then
    .error (.tapFailed p.exitCode (String.intercalate "\n" p.stderrLines))
  else .ok (p.streamed ++ p.drained) (tapLastState p.streamed)

/-- The unit handed to persistence (`new_record` in `process_tap_output`,
`sync.py` lines 60-67). -/
structure ExtractedRecord where
  user_id : String
  project_id : String
  connection_id : String
  stream : Json
  record : Json

/-- `stream_counts[stream] = stream_counts.get(stream, 0) + 1`: bump the
count of `k`, appending a fresh entry when absent (dict insertion order). -/
def bumpCount : List (Json × Nat) → Json → List (Json × Nat)
  | [], k => [(k, 1)]
  | (k', c) :: rest, k =>
    if pyKeyEq k' k then (k', c + 1) :: rest else (k', c) :: bumpCount rest k

/-- Lookup in the counts dict (0 when absent). -/
def countOf : List (Json × Nat) → Json → Nat
  | [], _ => 0
  | (k', c) :: rest, k => if pyKeyEq k' k then c else countOf rest k

/-- One iteration of the loop in `process_tap_output` (`sync.py` lines
41-75).  A line that fails to parse, is not a JSON object, or does not
carry `type == 'RECORD'` contributes nothing; an unhashable `stream` value
raises `TypeError` at the counts update, caught by the catch-all handler
before the record is appended. -/
def processLine (uid pid cid : String)
    (acc : List ExtractedRecord × List (Json × Nat)) (line : Option Json) :
    List ExtractedRecord × List (Json × Nat) :=
  match line with
  | none => acc
  | some msg =>
    match msg with
    | .obj _ =>
      if isTypeTag msg "RECORD" then
        let stream := msg.get "stream"
        let record := msg.getD "record" (.obj [])
        if isHashable stream then
          (acc.1 ++ [⟨uid, pid, cid, stream, record⟩], bumpCount acc.2 stream)
        else acc
      else acc
    | _ => acc

/-- `process_tap_output` (`sync.py` lines 18-85): classifies every output
line, returning the records to insert and the per-stream counts. -/
def process_tap_output (lines : List (Option Json)) (uid pid cid : String) :
    List ExtractedRecord × List (Json × Nat) :=
  lines.foldl (processLine uid pid cid) ([], [])

/-- `CHUNK_SIZE` (`sync.py` line 16). -/
def CHUNK_SIZE : Nat := 500

/-- Loop of `chunksOf`, structurally recursive on a fuel bounding the
number of iterations; `l.length` iterations always suffice when `n ≠ 0`
because every iteration drops at least one element. -/
def chunksOfAux (n : Nat) : Nat → List α → List (List α)
  | _, [] => []
  | 0, _ :: _ => []
  | fuel + 1, x :: xs => (x :: xs).take n :: chunksOfAux n fuel ((x :: xs).drop n)

/-- The slices `records[i:i+n]` for `i in range(0, len(records), n)`
(`range` with step 0 is outside the Python function's domain). -/
def chunksOf (n : Nat) (l : List α) : List (List α) :=
  if n = 0 then [] else chunksOfAux n l.length l

/-- The storage collaborator as seen by `insert_records_batch`: whether
the pre-loop client access succeeds, and whether the bulk-insert of the
i-th chunk succeeds. -/
structure PersistEnv where
  preOk : Bool
  chunkOk : Nat → Bool

/-- Observable outcome of `insert_records_batch`: its boolean result, the
count of records belonging to successfully inserted chunks, and the
sequence of bulk-insert calls issued. -/
structure PersistOutcome where
  success : Bool
  totalInserted : Nat
  insertCalls : List (List ExtractedRecord)

/-- `insert_records_batch` (`sync.py` lines 87-150): issues one insert per
chunk, in order; a chunk failure is caught by the inner handler and the
loop continues, so the function returns `True` whenever the code before
the loop did not raise, regardless of chunk failures. -/
def insert_records_batch (records : List ExtractedRecord) (p : PersistEnv) :
    PersistOutcome :=
  if !p.preOk then ⟨false, 0, []⟩
  else
    let cs := chunksOf CHUNK_SIZE records
    let total := (cs.enum.filter (fun ic => p.chunkOk ic.1)).foldl
      (fun a ic => a + ic.2.length) 0
    ⟨true, total, cs⟩

/-- Environment of one `sync_connection` run: identifiers, the config
document stored in the connection record, and the behavior of every
external collaborator touched during the run. -/
structure SyncEnv where
  user_id : String
  project_id : String
  connection_id : String
  config : Json
  discovery : DiscoveryProc
  updateCatalogOk : Bool
  tapStreamed : List (Option Json)
  tapDrained : List (Option Json)
  tapStderr : List String
  tapExit : Int
  persist : PersistEnv
  stateWriteOk : Bool

/-- The three per-connection documents under
`users_private/<user>/<project>/connections/<type>/`. -/
structure FS where
  configFile : FileContent
  catalogFile : FileContent
  stateFile : FileContent

/-- The exceptions `sync_connection` can raise to its caller. -/
inductive SyncError where
  | invalidConfig
  | catalogGenerationFailed
  | catalogReadFailed
  | catalogSaveFailed
  | tapError (e : TapError)

/-- The success payload returned by `sync_connection` (`sync.py` lines
323-328); the elapsed wall-clock time is not modelled. -/
structure Summary where
  message : String
  streams : List (Json × Nat)
  total_records_processed : Nat

/-- Result of one run: the raised exception or the success payload. -/
inductive SyncResult where
  | error (e : SyncError)
  | ok (s : Summary)

/-- Observable outcome of one `sync_connection` run: its result, the
final on-disk documents, how many times discovery was invoked, the prior
state read in step 6, the records handed to `insert_records_batch`, and
the bulk-insert calls issued. -/
structure SyncOutcome where
  result : SyncResult
  fs : FS
  discoveryCalls : Nat
  initialState : Option Json
  handedToPersistence : List ExtractedRecord
  insertCalls : List (List ExtractedRecord)

/-- Steps 7-9 of `sync_connection` (`sync.py` lines 283-328): classify
the output, persist the batches, and write the last state only when it is
truthy; entered with the result of the extraction step. -/
def syncAfterTap (env : SyncEnv) (fs : FS) (discoveryCalls : Nat)
    (initialState : Option Json) : TapResult → SyncOutcome
  | .error e => ⟨.error (.tapError e), fs, discoveryCalls, initialState, [], []⟩
  | .ok outputLines lastState =>
    let pr := process_tap_output outputLines env.user_id env.project_id env.connection_id
    let records := pr.1
    let streamCounts := pr.2
    let ins : PersistOutcome :=
      if records.isEmpty then ⟨true, 0, []⟩
      else insert_records_batch records env.persist
    let fs' :=
      if lastState.truthy then
        if env.stateWriteOk then { fs with stateFile := .json lastState } else fs
      else fs
    ⟨.ok ⟨"Sync concluído com sucesso", streamCounts, records.length⟩,
      fs', discoveryCalls, initialState, records, ins.insertCalls⟩

/-- Steps 5b-9 of `sync_connection` (`sync.py` lines 246-328), entered
after the catalog file exists and was read successfully. -/
def syncAfterCatalog (env : SyncEnv) (fs : FS) (discoveryCalls : Nat) :
    SyncOutcome :=
  if !env.updateCatalogOk then
    ⟨.error .catalogSaveFailed, fs, discoveryCalls, none, [], []⟩
  else
    let initialState : Option Json :=
      match fs.stateFile with
      | .json j => some j
      | _ => none
    let tp : TapProc :=
      { configExists := !fs.configFile.isAbsent
        catalogGiven := true
        catalogExists := !fs.catalogFile.isAbsent
        stateGiven := true
        stateExists := !fs.stateFile.isAbsent
        streamed := env.tapStreamed
        drained := env.tapDrained
        stderrLines := env.tapStderr
        exitCode := env.tapExit }
    syncAfterTap env fs discoveryCalls initialState (run_tap_woocommerce tp)

/-- `sync_connection` (`sync.py` lines 152-334): writes the config file
from the connection record, validates it (step 4), generates the catalog
only when no cached catalog file exists (step 5), mirrors the catalog to
storage, runs the extractor, classifies its output, persists the records
in batches, and finally writes the last observed state only when it is
truthy; a state-write failure is swallowed. -/
def sync_connection (env : SyncEnv) (fs0 : FS) : SyncOutcome :=
  let fs1 : FS := { fs0 with configFile := .json env.config }
  let v := validate_tap_config fs1.configFile
  let fs2 : FS := { fs1 with configFile := v.2 }
  if !v.1 then ⟨.error .invalidConfig, fs2, 0, none, [], []⟩
  else
    match fs2.catalogFile with
    | .absent =>
      let g := generate_catalog env.discovery
      if g.1 then syncAfterCatalog env { fs2 with catalogFile := g.2 } 1
      else ⟨.error .catalogGenerationFailed, fs2, 1, none, [], []⟩
    | .unreadable =>
      ⟨.error .catalogReadFailed, fs2, 0, none, [], []⟩
    | .json _ => syncAfterCatalog env fs2 0

/-- The conditions under which a run reaches step 6 (the extractor
invocation): the config validates, a cached catalog is readable or
discovery succeeds, and the catalog mirror to storage succeeds. -/
def preTapOk (env : SyncEnv) (fs : FS) : Bool :=
  (validate_tap_config (.json env.config)).1 &&
  (match fs.catalogFile with
   | .absent => (generate_catalog env.discovery).1
   | .unreadable => false
   | .json _ => true) &&
  env.updateCatalogOk

/-- A `{"type":"RECORD",...}` protocol line for the given stream. -/
def mkRecordLine (stream : String) : Option Json :=
  some (Json.obj
    [("type", Json.str "RECORD"), ("stream", Json.str stream),
     ("record", Json.obj [("id", Json.num 1)])])

/-- A `{"type":"STATE","value":...}` protocol line. -/
def mkStateLine (v : Json) : Option Json :=
  some (Json.obj [("type", Json.str "STATE"), ("value", v)])

/-- Two well-formed `orders` record lines interleaved with a line that
fails to parse, a line that parses to a non-object, and a line with an
unknown type discriminator. -/
def junkLines : List (Option Json) :=
  [mkRecordLine "orders", none, some (Json.str "oops"),
   mkRecordLine "orders", some (Json.obj [("type", Json.str "FOO")])]

/-- Fields of a config document with `start_date` lacking the `Z` marker. -/
def sampleFields : List (String × Json) :=
  [("site_url", Json.str "https://shop.example.com"),
   ("consumer_key", Json.str "ck_1"),
   ("consumer_secret", Json.str "cs_1"),
   ("start_date", Json.str "2024-01-01")]

/-- A config document with `start_date` lacking the `Z` marker. -/
def sampleConfig : Json := Json.obj sampleFields

/-- `sampleConfig` after date normalization. -/
def sampleConfigZ : Json := Json.obj
  [("site_url", Json.str "https://shop.example.com"),
   ("consumer_key", Json.str "ck_1"),
   ("consumer_secret", Json.str "cs_1"),
   ("start_date", Json.str "2024-01-01Z")]

/-- A concrete extracted record, used as chunk filler in concrete runs. -/
def sampleRecord : ExtractedRecord :=
  ⟨"u1", "p1", "c1", Json.str "orders", Json.obj [("id", Json.num 1)]⟩

/-- Filesystem before a concrete run: a cached catalog and a prior
checkpoint are present. -/
def sampleFS : FS :=
  { configFile := .absent
    catalogFile := .json (Json.obj [("streams", Json.arr [])])
    stateFile := .json (Json.str "old") }

/-- Environment of a concrete fully-successful run: one record line for
`orders` followed by a truthy state line. -/
def sampleEnv : SyncEnv :=
  { user_id := "u1", project_id := "p1", connection_id := "c1"
    config := sampleConfigZ
    discovery := { exitCode := 0, output := some (Json.obj [("streams", Json.arr [])]), writeOk := true }
    updateCatalogOk := true
    tapStreamed := [mkRecordLine "orders", mkStateLine (Json.str "s1")]
    tapDrained := []
    tapStderr := []
    tapExit := 0
    persist := { preOk := true, chunkOk := fun _ => true }
    stateWriteOk := true }

/-- A protocol line that parses to an object with `type == 'RECORD'` and
the given `stream` value (used to state per-stream counting claims). -/
def isRecordLineFor (stream : String) (line : Option Json) : Bool :=
  match line with
  | none => false
  | some msg =>
    match msg with
    | .obj _ =>
      isTypeTag msg "RECORD" &&
        (match msg.get "stream" with
         | .str s => s == stream
         | _ => false)
    | _ => false

/-- A line that fails to parse, is not an object, or carries a type
discriminator outside the protocol's `RECORD` / `STATE` / `SCHEMA`. -/
def isMalformedOrUnknownLine (line : Option Json) : Bool :=
  match line with
  | none => true
  | some msg =>
    match msg with
    | .obj _ =>
      !(isTypeTag msg "RECORD" || isTypeTag msg "STATE" || isTypeTag msg "SCHEMA")
    | _ => true

/-- A line that parses to an object with `type == 'STATE'`. -/
def isStateLine (line : Option Json) : Bool :=
  match line with
  | none => false
  | some msg =>
    match msg with
    | .obj _ => isTypeTag msg "STATE"
    | _ => false

/-- Total of the per-stream counts dict. -/
def countsSum (m : List (Json × Nat)) : Nat := (m.map Prod.snd).sum

/-- Environment whose extractor exits 1 after two diagnostic lines. -/
def c1Env : SyncEnv := { sampleEnv with tapExit := 1, tapStderr := ["boom", "bad creds"] }

/-- Environment whose extractor emits only a final `STATE` message whose
value is the empty object, then exits 0. -/
def c2Env : SyncEnv := { sampleEnv with tapStreamed := [mkStateLine (Json.obj [])] }

/-- Environment whose extractor emits a record line and then a `STATE`
message whose value is the empty object, then exits 0. -/
def c10Env : SyncEnv :=
  { sampleEnv with tapStreamed := [mkRecordLine "orders", mkStateLine (Json.obj [])] }

/-! ## Lemmas about chunking -/

theorem chunksOfAux_congr (n : Nat) (hn : n ≠ 0) :
    ∀ (fuel fuel' : Nat) (l : List α), l.length ≤ fuel → l.length ≤ fuel' →
      chunksOfAux n fuel l = chunksOfAux n fuel' l := by
  intro fuel
  induction fuel using Nat.strong_induction_on with
  | _ fuel ih =>
    intro fuel' l h1 h2
    match l with
    | [] => cases fuel <;> cases fuel' <;> rfl
    | x :: xs =>
      simp only [List.length_cons] at h1 h2
      obtain ⟨f, rfl⟩ : ∃ f, fuel = f + 1 := ⟨fuel - 1, by omega⟩
      obtain ⟨f', rfl⟩ : ∃ f', fuel' = f' + 1 := ⟨fuel' - 1, by omega⟩
      simp only [chunksOfAux]
      congr 1
      have hd : ((x :: xs).drop n).length ≤ f := by
        simp only [List.length_drop, List.length_cons]; omega
      have hd' : ((x :: xs).drop n).length ≤ f' := by
        simp only [List.length_drop, List.length_cons]; omega
      exact ih f (Nat.lt_succ_self f) f' _ hd hd'

theorem chunksOf_nil (n : Nat) : chunksOf n ([] : List α) = [] := by
  unfold chunksOf; split <;> rfl

theorem chunksOf_cons (n : Nat) (hn : n ≠ 0) (l : List α) (hl : l ≠ []) :
    chunksOf n l = l.take n :: chunksOf n (l.drop n) := by
  obtain ⟨x, xs, rfl⟩ := List.exists_cons_of_ne_nil hl
  simp only [chunksOf, if_neg hn, List.length_cons]
  simp only [chunksOfAux]
  congr 1
  apply chunksOfAux_congr n hn
  · simp only [List.length_drop, List.length_cons]; omega
  · exact Nat.le_refl _

theorem chunksOf_eq_nil_iff (n : Nat) (hn : n ≠ 0) (l : List α) :
    chunksOf n l = [] ↔ l = [] := by
  constructor
  · intro h
    by_contra hl
    rw [chunksOf_cons n hn l hl] at h
    exact List.noConfusion h
  · intro h; subst h; exact chunksOf_nil n

theorem chunksOf_flatten (n : Nat) (hn : n ≠ 0) (l : List α) :
    (chunksOf n l).flatten = l := by
  generalize hm : l.length = m
  induction m using Nat.strong_induction_on generalizing l with
  | _ m ih =>
    by_cases hl : l = []
    · subst hl; simp [chunksOf_nil]
    · rw [chunksOf_cons n hn l hl]
      simp only [List.flatten_cons]
      have hlt : (l.drop n).length < m := by
        have h0 : 0 < l.length := List.length_pos.mpr hl
        simp only [List.length_drop]; omega
      rw [ih (l.drop n).length hlt (l.drop n) rfl]
      exact List.take_append_drop n l

theorem chunksOf_mem_length (n : Nat) (hn : n ≠ 0) (l : List α) :
    ∀ c ∈ chunksOf n l, c.length ≤ n ∧ c ≠ [] := by
  generalize hm : l.length = m
  induction m using Nat.strong_induction_on generalizing l with
  | _ m ih =>
    by_cases hl : l = []
    · subst hl; simp [chunksOf_nil]
    · rw [chunksOf_cons n hn l hl]
      intro c hc
      rcases List.mem_cons.mp hc with h | h
      · subst h
        refine ⟨by simp [List.length_take], ?_⟩
        simp only [ne_eq, List.take_eq_nil_iff]
        push_neg
        exact ⟨hn, hl⟩
      · have hlt : (l.drop n).length < m := by
          have h0 : 0 < l.length := List.length_pos.mpr hl
          simp only [List.length_drop]; omega
        exact ih (l.drop n).length hlt (l.drop n) rfl c h

theorem chunksOf_dropLast_length (n : Nat) (hn : n ≠ 0) (l : List α) :
    ∀ c ∈ (chunksOf n l).dropLast, c.length = n := by
  generalize hm : l.length = m
  induction m using Nat.strong_induction_on generalizing l with
  | _ m ih =>
    by_cases hl : l = []
    · subst hl; simp [chunksOf_nil]
    · rw [chunksOf_cons n hn l hl]
      by_cases hrest : chunksOf n (l.drop n) = []
      · simp [hrest]
      · rw [List.dropLast_cons_of_ne_nil hrest]
        intro c hc
        rcases List.mem_cons.mp hc with h | h
        · subst h
          have hd : l.drop n ≠ [] := by
            intro hd
            exact hrest (by rw [hd]; exact chunksOf_nil n)
          have hlen : n < l.length := by
            have := List.length_pos.mpr hd
            simp only [List.length_drop] at this
            omega
          simp only [List.length_take]
          omega
        · have hlt : (l.drop n).length < m := by
            have h0 : 0 < l.length := List.length_pos.mpr hl
            simp only [List.length_drop]; omega
          exact ih (l.drop n).length hlt (l.drop n) rfl c h

theorem insert_records_batch_calls (records : List ExtractedRecord) (p : PersistEnv)
    (hp : p.preOk = true) :
    (insert_records_batch records p).insertCalls = chunksOf CHUNK_SIZE records := by
  simp [insert_records_batch, hp]

theorem insert_records_batch_success (records : List ExtractedRecord) (p : PersistEnv)
    (hp : p.preOk = true) :
    (insert_records_batch records p).success = true := by
  simp [insert_records_batch, hp]

set_option maxRecDepth 10000 in
theorem chunksOf_1200_sizes :
    (chunksOf CHUNK_SIZE (List.replicate 1200 sampleRecord)).map List.length
      = [500, 500, 200] := rfl

/-! ## Claim theorems: batch persistence (C3, C5) -/

/-- C3 counterexample: with a single chunk whose bulk-insert fails (the
chunk oracle reports failure for chunk 0 and no record is counted as
inserted), `insert_records_batch` still returns `True`, so its result does
not report whether every chunk succeeded. -/
theorem c3_counterexample_result_hides_chunk_failure :
    (insert_records_batch [sampleRecord] ⟨true, fun _ => false⟩).success = true
    ∧ (insert_records_batch [sampleRecord] ⟨true, fun _ => false⟩).insertCalls
        = [[sampleRecord]]
    ∧ ((fun _ => false : Nat → Bool) 0 = false)
    ∧ (insert_records_batch [sampleRecord] ⟨true, fun _ => false⟩).totalInserted = 0 :=
  ⟨rfl, rfl, rfl, rfl⟩

/-- C3 (amended): `persist` forwards each chunk to the storage
collaborator sequentially; a failed chunk is logged and the loop continues
to the next chunk without aborting the run, and the returned result is
`True` whenever the pre-loop client access succeeds — regardless of
per-chunk failures, which it does not report. -/
theorem c3_chunk_failure_continues_loop
    (records : List ExtractedRecord) (p : PersistEnv) (hp : p.preOk = true) :
    (insert_records_batch records p).success = true
    ∧ (insert_records_batch records p).insertCalls = chunksOf CHUNK_SIZE records :=
  ⟨insert_records_batch_success records p hp, insert_records_batch_calls records p hp⟩

/-- C3 witness: a two-chunk input whose first chunk fails; both chunks are
still forwarded and the result is success. -/
theorem c3_chunk_failure_continues_loop_witness :
    (⟨true, fun i => decide (i ≠ 0)⟩ : PersistEnv).preOk = true
    ∧ ((insert_records_batch (List.replicate 501 sampleRecord)
          ⟨true, fun i => decide (i ≠ 0)⟩).success = true
       ∧ (insert_records_batch (List.replicate 501 sampleRecord)
            ⟨true, fun i => decide (i ≠ 0)⟩).insertCalls
           = chunksOf CHUNK_SIZE (List.replicate 501 sampleRecord)) :=
  ⟨rfl, c3_chunk_failure_continues_loop (List.replicate 501 sampleRecord)
    ⟨true, fun i => decide (i ≠ 0)⟩ rfl⟩

/-- C5: `insert_records_batch` partitions the records into fixed-size
chunks of `CHUNK_SIZE = 500` preserving original order (flattening the
issued calls gives back the input; every chunk is nonempty of size at most
500, and all chunks except possibly the last have size exactly 500), one
bulk-insert call per chunk in order; in particular 1200 records yield
exactly 3 calls of sizes 500, 500, 200, in that order. -/
theorem c5_chunking_preserves_order_and_sizes
    (records : List ExtractedRecord) (p : PersistEnv) (hp : p.preOk = true) :
    (insert_records_batch records p).insertCalls = chunksOf CHUNK_SIZE records
    ∧ (chunksOf CHUNK_SIZE records).flatten = records
    ∧ (∀ c ∈ chunksOf CHUNK_SIZE records, c.length ≤ CHUNK_SIZE ∧ c ≠ [])
    ∧ (∀ c ∈ (chunksOf CHUNK_SIZE records).dropLast, c.length = CHUNK_SIZE)
    ∧ (insert_records_batch (List.replicate 1200 sampleRecord) p).insertCalls.map List.length
        = [500, 500, 200] := by
  have h500 : CHUNK_SIZE ≠ 0 := by decide
  refine ⟨insert_records_batch_calls records p hp, chunksOf_flatten _ h500 records,
    chunksOf_mem_length _ h500 records, chunksOf_dropLast_length _ h500 records, ?_⟩
  rw [insert_records_batch_calls _ p hp]
  exact chunksOf_1200_sizes

/-- C5 witness: the theorem instantiated at 1200 records and an
all-successful persistence oracle. -/
theorem c5_chunking_preserves_order_and_sizes_witness :
    (⟨true, fun _ => true⟩ : PersistEnv).preOk = true
    ∧ ((insert_records_batch (List.replicate 1200 sampleRecord)
          ⟨true, fun _ => true⟩).insertCalls
        = chunksOf CHUNK_SIZE (List.replicate 1200 sampleRecord)
      ∧ (chunksOf CHUNK_SIZE (List.replicate 1200 sampleRecord)).flatten
          = List.replicate 1200 sampleRecord
      ∧ (∀ c ∈ chunksOf CHUNK_SIZE (List.replicate 1200 sampleRecord),
          c.length ≤ CHUNK_SIZE ∧ c ≠ [])
      ∧ (∀ c ∈ (chunksOf CHUNK_SIZE (List.replicate 1200 sampleRecord)).dropLast,
          c.length = CHUNK_SIZE)
      ∧ (insert_records_batch (List.replicate 1200 sampleRecord)
            ⟨true, fun _ => true⟩).insertCalls.map List.length
          = [500, 500, 200]) :=
  ⟨rfl, c5_chunking_preserves_order_and_sizes (List.replicate 1200 sampleRecord)
    ⟨true, fun _ => true⟩ rfl⟩

/-! ## Lemmas about classification and counting -/

theorem countsSum_cons (k : Json) (c : Nat) (rest : List (Json × Nat)) :
    countsSum ((k, c) :: rest) = c + countsSum rest := by
  simp [countsSum]

theorem countsSum_bumpCount (m : List (Json × Nat)) (k : Json) :
    countsSum (bumpCount m k) = countsSum m + 1 := by
  induction m with
  | nil => rfl
  | cons kv rest ih =>
    obtain ⟨k', c⟩ := kv
    by_cases h : pyKeyEq k' k = true
    · rw [show bumpCount ((k', c) :: rest) k = (k', c + 1) :: rest from by
        simp [bumpCount, h]]
      rw [countsSum_cons, countsSum_cons]
      omega
    · rw [show bumpCount ((k', c) :: rest) k = (k', c) :: bumpCount rest k from by
        simp [bumpCount, h]]
      rw [countsSum_cons, countsSum_cons, ih]
      omega

theorem countOf_bumpCount (m : List (Json × Nat)) (k : Json) (hk : pyKeyEq k k = true) :
    countOf (bumpCount m k) k = countOf m k + 1 := by
  induction m with
  | nil => simp [bumpCount, countOf, hk]
  | cons kv rest ih =>
    obtain ⟨k', c⟩ := kv
    by_cases h : pyKeyEq k' k = true
    · simp [bumpCount, countOf, h]
    · simp [bumpCount, countOf, h, ih]

theorem pyKeyEq_str_refl (s : String) : pyKeyEq (.str s) (.str s) = true := by
  simp [pyKeyEq, keyNum]

theorem processLine_length_countsSum (uid pid cid : String)
    (acc : List ExtractedRecord × List (Json × Nat)) (line : Option Json) :
    ((processLine uid pid cid acc line).1).length + countsSum acc.2
      = acc.1.length + countsSum ((processLine uid pid cid acc line).2) := by
  rcases line with _ | msg
  · rfl
  rcases msg with _ | b | n | s | elems | fields <;> try rfl
  by_cases ht : isTypeTag (Json.obj fields) "RECORD" = true
  · by_cases hh : isHashable ((Json.obj fields).get "stream") = true
    · simp only [processLine, ht, if_true, hh, List.length_append, List.length_cons,
        List.length_nil, countsSum_bumpCount]
      omega
    · simp [processLine, ht, hh]
  · simp [processLine, ht]

theorem foldl_processLine_length (uid pid cid : String) :
    ∀ (lines : List (Option Json)) (acc : List ExtractedRecord × List (Json × Nat)),
      ((lines.foldl (processLine uid pid cid) acc).1).length + countsSum acc.2
        = acc.1.length + countsSum ((lines.foldl (processLine uid pid cid) acc).2) := by
  intro lines
  induction lines with
  | nil => intro acc; rfl
  | cons l ls ih =>
    intro acc
    simp only [List.foldl_cons]
    have h1 := processLine_length_countsSum uid pid cid acc l
    have h2 := ih (processLine uid pid cid acc l)
    omega

theorem process_tap_output_length (lines : List (Option Json)) (uid pid cid : String) :
    (process_tap_output lines uid pid cid).1.length
      = countsSum (process_tap_output lines uid pid cid).2 := by
  have h := foldl_processLine_length uid pid cid lines ([], [])
  simpa [process_tap_output, countsSum] using h

theorem processLine_skip (uid pid cid : String)
    (acc : List ExtractedRecord × List (Json × Nat)) (line : Option Json)
    (h : isMalformedOrUnknownLine line = true) :
    processLine uid pid cid acc line = acc := by
  rcases line with _ | msg
  · rfl
  rcases msg with _ | b | n | s | elems | fields <;> try rfl
  simp only [isMalformedOrUnknownLine, Bool.not_eq_true', Bool.or_eq_false_iff] at h
  simp [processLine, h.1.1]

theorem skip_not_record (stream : String) (line : Option Json)
    (h : isMalformedOrUnknownLine line = true) :
    isRecordLineFor stream line = false := by
  rcases line with _ | msg
  · rfl
  rcases msg with _ | b | n | s | elems | fields <;> try rfl
  simp only [isMalformedOrUnknownLine, Bool.not_eq_true', Bool.or_eq_false_iff] at h
  simp [isRecordLineFor, h.1.1]

theorem processLine_record (uid pid cid stream : String)
    (acc : List ExtractedRecord × List (Json × Nat)) (line : Option Json)
    (h : isRecordLineFor stream line = true) :
    ((processLine uid pid cid acc line).1).length = acc.1.length + 1
    ∧ (processLine uid pid cid acc line).2 = bumpCount acc.2 (.str stream) := by
  rcases line with _ | msg
  · exact absurd h (by simp [isRecordLineFor])
  rcases msg with _ | b | n | s | elems | fields
  iterate 5 exact absurd h (by simp [isRecordLineFor])
  simp only [isRecordLineFor, Bool.and_eq_true] at h
  obtain ⟨hA, hS⟩ := h
  cases hg : (Json.obj fields).get "stream" with
  | str s =>
    simp only [hg] at hS
    have hs : s = stream := by simpa using hS
    subst hs
    constructor
    · simp [processLine, hA, hg, isHashable]
    · simp [processLine, hA, hg, isHashable]
  | null => simp [hg] at hS
  | bool b => simp [hg] at hS
  | num n => simp [hg] at hS
  | arr elems => simp [hg] at hS
  | obj fields2 => simp [hg] at hS

theorem foldl_processLine_stream_count (uid pid cid stream : String) :
    ∀ (lines : List (Option Json)) (acc : List ExtractedRecord × List (Json × Nat)),
      (∀ l ∈ lines, isRecordLineFor stream l = true ∨ isMalformedOrUnknownLine l = true) →
      countOf ((lines.foldl (processLine uid pid cid) acc).2) (.str stream)
          = countOf acc.2 (.str stream) + (lines.filter (isRecordLineFor stream)).length
      ∧ ((lines.foldl (processLine uid pid cid) acc).1).length
          = acc.1.length + (lines.filter (isRecordLineFor stream)).length := by
  intro lines
  induction lines with
  | nil => intro acc _; exact ⟨by simp, by simp⟩
  | cons l ls ih =>
    intro acc h
    have hl := h l (List.mem_cons_self l ls)
    have hls : ∀ x ∈ ls, isRecordLineFor stream x = true ∨ isMalformedOrUnknownLine x = true :=
      fun x hx => h x (List.mem_cons_of_mem l hx)
    simp only [List.foldl_cons]
    by_cases hr : isRecordLineFor stream l = true
    · obtain ⟨h1, h2⟩ := processLine_record uid pid cid stream acc l hr
      obtain ⟨ih1, ih2⟩ := ih (processLine uid pid cid acc l) hls
      rw [List.filter_cons_of_pos hr, List.length_cons]
      constructor
      · rw [ih1, h2, countOf_bumpCount _ _ (pyKeyEq_str_refl stream)]
        omega
      · rw [ih2, h1]
        omega
    · have hm : isMalformedOrUnknownLine l = true := hl.resolve_left hr
      rw [processLine_skip uid pid cid acc l hm]
      rw [List.filter_cons_of_neg (by simp [skip_not_record stream l hm])]
      exact ih acc hls

/-! ## Claim theorem: classifier resilience (C4) -/

/-- C4: for every list of output lines consisting of `RECORD` lines for
stream `orders` interleaved with any number of lines that fail to parse or
carry an unrecognized type discriminator, classification (a total
function) maps `orders` to exactly the number of those record lines, hands
exactly that many records to persistence, and every malformed or unknown
line leaves the classifier state unchanged (logged and skipped). -/
theorem c4_malformed_lines_skipped_counts_exact (uid pid cid : String)
    (lines : List (Option Json))
    (h : ∀ l ∈ lines, isRecordLineFor "orders" l = true ∨ isMalformedOrUnknownLine l = true) :
    countOf (process_tap_output lines uid pid cid).2 (Json.str "orders")
        = (lines.filter (isRecordLineFor "orders")).length
    ∧ (process_tap_output lines uid pid cid).1.length
        = (lines.filter (isRecordLineFor "orders")).length
    ∧ ∀ (acc : List ExtractedRecord × List (Json × Nat)) (l : Option Json),
        isMalformedOrUnknownLine l = true → processLine uid pid cid acc l = acc := by
  have h2 := foldl_processLine_stream_count uid pid cid "orders" lines ([], []) h
  exact ⟨by simpa [process_tap_output, countOf] using h2.1,
         by simpa [process_tap_output] using h2.2,
         fun acc l hm => processLine_skip uid pid cid acc l hm⟩

/-- C4 witness: two `orders` record lines interleaved with three junk
lines give count 2, two persisted records, and no classifier failure. -/
theorem c4_malformed_lines_skipped_counts_exact_witness :
    (∀ l ∈ junkLines,
        isRecordLineFor "orders" l = true ∨ isMalformedOrUnknownLine l = true)
    ∧ (countOf (process_tap_output junkLines "u1" "p1" "c1").2 (Json.str "orders")
          = (junkLines.filter (isRecordLineFor "orders")).length
      ∧ (process_tap_output junkLines "u1" "p1" "c1").1.length
          = (junkLines.filter (isRecordLineFor "orders")).length
      ∧ ∀ (acc : List ExtractedRecord × List (Json × Nat)) (l : Option Json),
          isMalformedOrUnknownLine l = true → processLine "u1" "p1" "c1" acc l = acc) :=
  ⟨by decide, c4_malformed_lines_skipped_counts_exact "u1" "p1" "c1" junkLines (by decide)⟩

/-! ## Lemmas about the config validator -/

theorem lookupField_setField_self (fields : List (String × Json)) (k : String) (v : Json) :
    lookupField (setField fields k v) k = some v := by
  induction fields with
  | nil => simp [setField, lookupField]
  | cons kv rest ih =>
    obtain ⟨k', v'⟩ := kv
    by_cases h : k' = k
    · simp [setField, lookupField, h]
    · simp [setField, lookupField, h, ih]

theorem lookupField_setField_ne (fields : List (String × Json)) (k k2 : String) (v : Json)
    (h : k2 ≠ k) :
    lookupField (setField fields k v) k2 = lookupField fields k2 := by
  induction fields with
  | nil => simp [setField, lookupField, Ne.symm h]
  | cons kv rest ih =>
    obtain ⟨k', v'⟩ := kv
    by_cases hk : k' = k
    · subst hk
      simp [setField, lookupField, Ne.symm h]
    · by_cases hk2 : k' = k2
      · simp [setField, lookupField, hk, hk2, h]
      · simp [setField, lookupField, hk, hk2, ih]

theorem get_setField_self (fields : List (String × Json)) (k : String) (v : Json) :
    (Json.obj (setField fields k v)).get k = v := by
  simp [Json.get, lookupField_setField_self]

theorem get_setField_ne (fields : List (String × Json)) (k k2 : String) (v : Json)
    (h : k2 ≠ k) :
    (Json.obj (setField fields k v)).get k2 = (Json.obj fields).get k2 := by
  simp [Json.get, lookupField_setField_ne fields k k2 v h]

theorem hasKey_setField_self (fields : List (String × Json)) (k : String) (v : Json) :
    (Json.obj (setField fields k v)).hasKey k = true := by
  simp [Json.hasKey, lookupField_setField_self]

theorem hasKey_setField_ne (fields : List (String × Json)) (k k2 : String) (v : Json)
    (h : k2 ≠ k) :
    (Json.obj (setField fields k v)).hasKey k2 = (Json.obj fields).hasKey k2 := by
  simp [Json.hasKey, lookupField_setField_ne fields k k2 v h]

theorem get_str_hasKey (fields : List (String × Json)) (k s : String)
    (h : (Json.obj fields).get k = Json.str s) :
    (Json.obj fields).hasKey k = true := by
  simp only [Json.get] at h
  cases hl : lookupField fields k with
  | none => rw [hl] at h; exact absurd h (by simp)
  | some v => simp [Json.hasKey, hl]

theorem strEndsWith_append (s t : String) : strEndsWith (s ++ t) t = true := by
  simp only [strEndsWith]
  rw [List.isSuffixOf_iff_suffix, String.data_append]
  exact List.suffix_append s.data t.data

theorem validate_normalizes (fields : List (String × Json)) (url d : String)
    (hkey : (Json.obj fields).hasKey "consumer_key" = true)
    (hsec : (Json.obj fields).hasKey "consumer_secret" = true)
    (hurl : (Json.obj fields).get "site_url" = Json.str url)
    (hscheme : (strStartsWith url "http://" || strStartsWith url "https://") = true)
    (hdate : (Json.obj fields).get "start_date" = Json.str d)
    (hz : strEndsWith d "Z" = false) :
    validate_tap_config (.json (.obj fields))
      = (true, .json (.obj (setField fields "start_date" (.str (d ++ "Z"))))) := by
  have hmiss : requiredFields.filter (fun f => !(Json.obj fields).hasKey f) = [] := by
    simp [requiredFields, List.filter, get_str_hasKey _ _ _ hurl, hkey, hsec,
      get_str_hasKey _ _ _ hdate]
  simp [validate_tap_config, hmiss, hurl, hdate, hscheme, hz]

theorem validate_keeps (fields : List (String × Json)) (url d : String)
    (hkey : (Json.obj fields).hasKey "consumer_key" = true)
    (hsec : (Json.obj fields).hasKey "consumer_secret" = true)
    (hurl : (Json.obj fields).get "site_url" = Json.str url)
    (hscheme : (strStartsWith url "http://" || strStartsWith url "https://") = true)
    (hdate : (Json.obj fields).get "start_date" = Json.str d)
    (hz : strEndsWith d "Z" = true) :
    validate_tap_config (.json (.obj fields)) = (true, .json (.obj fields)) := by
  have hmiss : requiredFields.filter (fun f => !(Json.obj fields).hasKey f) = [] := by
    simp [requiredFields, List.filter, get_str_hasKey _ _ _ hurl, hkey, hsec,
      get_str_hasKey _ _ _ hdate]
  simp [validate_tap_config, hmiss, hurl, hdate, hscheme, hz]

/-! ## Claim theorem: date normalization (C7) -/

/-- C7: for every config whose required fields are present, whose
`site_url` is a string with an `http(s)` scheme and whose `start_date` is
a string lacking the trailing `Z`, `validate_tap_config` succeeds and
rewrites the file with `Z` appended to `start_date`; re-running it on the
corrected file succeeds and changes nothing (idempotence).  In particular
a config with `start_date = "2024-01-01"` is persisted with
`start_date = "2024-01-01Z"`. -/
theorem c7_validate_appends_z_idempotent
    (fields : List (String × Json)) (url d : String)
    (hkey : (Json.obj fields).hasKey "consumer_key" = true)
    (hsec : (Json.obj fields).hasKey "consumer_secret" = true)
    (hurl : (Json.obj fields).get "site_url" = Json.str url)
    (hscheme : (strStartsWith url "http://" || strStartsWith url "https://") = true)
    (hdate : (Json.obj fields).get "start_date" = Json.str d)
    (hz : strEndsWith d "Z" = false) :
    validate_tap_config (.json (.obj fields))
        = (true, .json (.obj (setField fields "start_date" (.str (d ++ "Z")))))
    ∧ validate_tap_config (.json (.obj (setField fields "start_date" (.str (d ++ "Z")))))
        = (true, .json (.obj (setField fields "start_date" (.str (d ++ "Z")))))
    ∧ validate_tap_config (.json sampleConfig) = (true, .json sampleConfigZ) := by
  have hne_url : ("site_url" : String) ≠ "start_date" := by decide
  have hne_key : ("consumer_key" : String) ≠ "start_date" := by decide
  have hne_sec : ("consumer_secret" : String) ≠ "start_date" := by decide
  refine ⟨validate_normalizes fields url d hkey hsec hurl hscheme hdate hz, ?_, rfl⟩
  apply validate_keeps (setField fields "start_date" (.str (d ++ "Z"))) url (d ++ "Z")
  · rw [hasKey_setField_ne fields "start_date" "consumer_key" _ hne_key]; exact hkey
  · rw [hasKey_setField_ne fields "start_date" "consumer_secret" _ hne_sec]; exact hsec
  · rw [get_setField_ne fields "start_date" "site_url" _ hne_url]; exact hurl
  · exact hscheme
  · exact get_setField_self fields "start_date" (.str (d ++ "Z"))
  · exact strEndsWith_append d "Z"

/-- C7 witness: the theorem instantiated at the sample config. -/
theorem c7_validate_appends_z_idempotent_witness :
    ((Json.obj sampleFields).hasKey "consumer_key" = true
     ∧ (Json.obj sampleFields).hasKey "consumer_secret" = true
     ∧ (Json.obj sampleFields).get "site_url" = Json.str "https://shop.example.com"
     ∧ (strStartsWith "https://shop.example.com" "http://"
        || strStartsWith "https://shop.example.com" "https://") = true
     ∧ (Json.obj sampleFields).get "start_date" = Json.str "2024-01-01"
     ∧ strEndsWith "2024-01-01" "Z" = false)
    ∧ (validate_tap_config (.json (.obj sampleFields))
        = (true, .json (.obj (setField sampleFields "start_date"
            (.str ("2024-01-01" ++ "Z")))))
      ∧ validate_tap_config (.json (.obj (setField sampleFields "start_date"
            (.str ("2024-01-01" ++ "Z")))))
        = (true, .json (.obj (setField sampleFields "start_date"
            (.str ("2024-01-01" ++ "Z")))))
      ∧ validate_tap_config (.json sampleConfig) = (true, .json sampleConfigZ)) :=
  ⟨⟨rfl, rfl, rfl, rfl, rfl, rfl⟩,
   c7_validate_appends_z_idempotent sampleFields "https://shop.example.com" "2024-01-01"
     rfl rfl rfl rfl rfl rfl⟩

/-! ## Lemmas about the orchestrator -/

theorem validate_snd_isAbsent (c : Json) :
    ((validate_tap_config (.json c)).2).isAbsent = false := by
  rcases c with _ | b | n | s | elems | fields <;> try rfl
  simp only [validate_tap_config]
  repeat' split
  all_goals rfl

theorem generate_catalog_snd (p : DiscoveryProc) (h : (generate_catalog p).1 = true) :
    (generate_catalog p).2.isAbsent = false := by
  obtain ⟨e, o, w⟩ := p
  by_cases he : (e != 0) = true
  · simp [generate_catalog, he] at h
  · rcases o with _ | j
    · simp [generate_catalog, he] at h
    · by_cases hw : w = true
      · simp [generate_catalog, he, hw, FileContent.isAbsent]
      · simp [generate_catalog, he, hw] at h

theorem run_tap_ok_inv (p : TapProc) (ol : List (Option Json)) (ls : Json)
    (h : run_tap_woocommerce p = .ok ol ls) :
    ol = p.streamed ++ p.drained ∧ ls = tapLastState p.streamed := by
  unfold run_tap_woocommerce at h
  split at h
  · exact absurd h (by simp)
  · split at h
    · exact absurd h (by simp)
    · split at h
      · exact absurd h (by simp)
      · obtain ⟨h1, h2⟩ := TapResult.ok.inj h
        exact ⟨h1.symm, h2.symm⟩

theorem syncAfterTap_discoveryCalls (env : SyncEnv) (fs : FS) (dc : Nat)
    (init : Option Json) (tr : TapResult) :
    (syncAfterTap env fs dc init tr).discoveryCalls = dc := by
  cases tr <;> rfl

theorem syncAfterCatalog_discoveryCalls (env : SyncEnv) (fs : FS) (dc : Nat) :
    (syncAfterCatalog env fs dc).discoveryCalls = dc := by
  unfold syncAfterCatalog
  split
  · rfl
  · exact syncAfterTap_discoveryCalls env fs dc _ _

theorem sync_reaches_tap (env : SyncEnv) (fs0 : FS) (hpre : preTapOk env fs0 = true) :
    ∃ catFile : FileContent, catFile.isAbsent = false ∧
      sync_connection env fs0 =
        syncAfterCatalog env
          { configFile := (validate_tap_config (.json env.config)).2
            catalogFile := catFile
            stateFile := fs0.stateFile }
          (if fs0.catalogFile.isAbsent then 1 else 0) := by
  simp only [preTapOk, Bool.and_eq_true] at hpre
  obtain ⟨⟨hv, hcat⟩, hupd⟩ := hpre
  obtain ⟨cf0, cat0, st0⟩ := fs0
  rcases cat0 with _ | _ | j
  · simp only at hcat
    refine ⟨(generate_catalog env.discovery).2, generate_catalog_snd _ hcat, ?_⟩
    simp [sync_connection, hv, hcat, FileContent.isAbsent]
  · exact absurd hcat (by simp)
  · refine ⟨.json j, rfl, ?_⟩
    simp [sync_connection, hv, FileContent.isAbsent]

theorem syncAfterCatalog_tap_error (env : SyncEnv) (fs : FS) (dc : Nat)
    (hupd : env.updateCatalogOk = true)
    (hcfg : fs.configFile.isAbsent = false)
    (hcat : fs.catalogFile.isAbsent = false)
    (hexit : env.tapExit ≠ 0) :
    syncAfterCatalog env fs dc =
      ⟨.error (.tapError (.tapFailed env.tapExit (String.intercalate "\n" env.tapStderr))),
       fs, dc,
       (match fs.stateFile with | .json j => some j | _ => none), [], []⟩ := by
  have hbne : (env.tapExit != 0) = true := by simpa [bne_iff_ne] using hexit
  simp [syncAfterCatalog, syncAfterTap, run_tap_woocommerce, hupd, hcfg, hcat, hbne]

theorem syncAfterCatalog_success (env : SyncEnv) (fs : FS) (dc : Nat)
    (hupd : env.updateCatalogOk = true)
    (hcfg : fs.configFile.isAbsent = false)
    (hcat : fs.catalogFile.isAbsent = false)
    (hexit : env.tapExit = 0) :
    syncAfterCatalog env fs dc =
      ⟨.ok ⟨"Sync concluído com sucesso",
            (process_tap_output (env.tapStreamed ++ env.tapDrained)
              env.user_id env.project_id env.connection_id).2,
            (process_tap_output (env.tapStreamed ++ env.tapDrained)
              env.user_id env.project_id env.connection_id).1.length⟩,
       (if (tapLastState env.tapStreamed).truthy then
          if env.stateWriteOk then
            { fs with stateFile := .json (tapLastState env.tapStreamed) }
          else fs
        else fs),
       dc,
       (match fs.stateFile with | .json j => some j | _ => none),
       (process_tap_output (env.tapStreamed ++ env.tapDrained)
          env.user_id env.project_id env.connection_id).1,
       ((if (process_tap_output (env.tapStreamed ++ env.tapDrained)
              env.user_id env.project_id env.connection_id).1.isEmpty
         then (⟨true, 0, []⟩ : PersistOutcome)
         else insert_records_batch
               (process_tap_output (env.tapStreamed ++ env.tapDrained)
                 env.user_id env.project_id env.connection_id).1
               env.persist).insertCalls)⟩ := by
  have hbne : (env.tapExit != 0) = false := by simp [hexit]
  simp [syncAfterCatalog, syncAfterTap, run_tap_woocommerce, hupd, hcfg, hcat, hbne]

theorem preTapOk_updateCatalogOk (env : SyncEnv) (fs : FS)
    (hpre : preTapOk env fs = true) : env.updateCatalogOk = true := by
  simp only [preTapOk, Bool.and_eq_true] at hpre
  exact hpre.2

theorem syncAfterTap_shape (env : SyncEnv) (fs : FS) (dc : Nat) (init : Option Json)
    (tr : TapResult)
    (h : ∀ ol ls, tr = .ok ol ls → ol = env.tapStreamed ++ env.tapDrained) :
    (∃ e, (syncAfterTap env fs dc init tr).result = .error e)
    ∨ ((syncAfterTap env fs dc init tr).result
          = .ok ⟨"Sync concluído com sucesso",
              (process_tap_output (env.tapStreamed ++ env.tapDrained)
                env.user_id env.project_id env.connection_id).2,
              (process_tap_output (env.tapStreamed ++ env.tapDrained)
                env.user_id env.project_id env.connection_id).1.length⟩
        ∧ (syncAfterTap env fs dc init tr).handedToPersistence
            = (process_tap_output (env.tapStreamed ++ env.tapDrained)
                env.user_id env.project_id env.connection_id).1) := by
  cases tr with
  | error e => exact Or.inl ⟨_, rfl⟩
  | ok ol ls =>
    rw [h ol ls rfl]
    exact Or.inr ⟨rfl, rfl⟩

theorem syncAfterCatalog_shape (env : SyncEnv) (fs : FS) (dc : Nat) :
    (∃ e, (syncAfterCatalog env fs dc).result = .error e)
    ∨ ((syncAfterCatalog env fs dc).result
          = .ok ⟨"Sync concluído com sucesso",
              (process_tap_output (env.tapStreamed ++ env.tapDrained)
                env.user_id env.project_id env.connection_id).2,
              (process_tap_output (env.tapStreamed ++ env.tapDrained)
                env.user_id env.project_id env.connection_id).1.length⟩
        ∧ (syncAfterCatalog env fs dc).handedToPersistence
            = (process_tap_output (env.tapStreamed ++ env.tapDrained)
                env.user_id env.project_id env.connection_id).1) := by
  unfold syncAfterCatalog
  split
  · exact Or.inl ⟨_, rfl⟩
  · exact syncAfterTap_shape env fs dc _ _
      (fun ol ls hres => (run_tap_ok_inv _ ol ls hres).1)

theorem sync_ok_shape (env : SyncEnv) (fs : FS) :
    (∃ e, (sync_connection env fs).result = .error e)
    ∨ ((sync_connection env fs).result
          = .ok ⟨"Sync concluído com sucesso",
              (process_tap_output (env.tapStreamed ++ env.tapDrained)
                env.user_id env.project_id env.connection_id).2,
              (process_tap_output (env.tapStreamed ++ env.tapDrained)
                env.user_id env.project_id env.connection_id).1.length⟩
        ∧ (sync_connection env fs).handedToPersistence
            = (process_tap_output (env.tapStreamed ++ env.tapDrained)
                env.user_id env.project_id env.connection_id).1) := by
  obtain ⟨cf, cat, st⟩ := fs
  rcases cat with _ | _ | j
  · simp only [sync_connection]
    split
    · exact Or.inl ⟨_, rfl⟩
    · split
      · exact syncAfterCatalog_shape env _ 1
      · exact Or.inl ⟨_, rfl⟩
  · simp only [sync_connection]
    split <;> exact Or.inl ⟨_, rfl⟩
  · simp only [sync_connection]
    split
    · exact Or.inl ⟨_, rfl⟩
    · exact syncAfterCatalog_shape env _ 0

theorem syncAfterTap_stateFile_of_falsy (env : SyncEnv) (fs : FS) (dc : Nat)
    (init : Option Json) (tr : TapResult)
    (hf : (tapLastState env.tapStreamed).truthy = false)
    (h : ∀ ol ls, tr = .ok ol ls → ls = tapLastState env.tapStreamed) :
    (syncAfterTap env fs dc init tr).fs.stateFile = fs.stateFile := by
  cases tr with
  | error e => rfl
  | ok ol ls =>
    have hls : ls = tapLastState env.tapStreamed := h ol ls rfl
    subst hls
    simp [syncAfterTap, hf]

theorem syncAfterCatalog_stateFile_of_falsy (env : SyncEnv) (fs : FS) (dc : Nat)
    (hf : (tapLastState env.tapStreamed).truthy = false) :
    (syncAfterCatalog env fs dc).fs.stateFile = fs.stateFile := by
  unfold syncAfterCatalog
  split
  · rfl
  · exact syncAfterTap_stateFile_of_falsy env fs dc _ _ hf
      (fun ol ls hres => (run_tap_ok_inv _ ol ls hres).2)

theorem sync_stateFile_unchanged_of_falsy (env : SyncEnv) (fs : FS)
    (hf : (tapLastState env.tapStreamed).truthy = false) :
    (sync_connection env fs).fs.stateFile = fs.stateFile := by
  obtain ⟨cf, cat, st⟩ := fs
  rcases cat with _ | _ | j
  · simp only [sync_connection]
    split
    · rfl
    · split
      · exact syncAfterCatalog_stateFile_of_falsy env _ 1 hf
      · rfl
  · simp only [sync_connection]
    split <;> rfl
  · simp only [sync_connection]
    split
    · rfl
    · exact syncAfterCatalog_stateFile_of_falsy env _ 0 hf

/-! ## Claim theorems: orchestrator behavior (C1, C2, C6, C8, C9, C10) -/

/-- C1: for every run that reaches the extraction step and whose extractor
process exits with a non-zero code, `sync_connection` raises the
extractor-execution error carrying the exit code and the newline-joined
diagnostic-channel text, and the checkpoint file on disk is unchanged from
before the run (checkpoint persistence is never reached). -/
theorem c1_nonzero_exit_fails_and_preserves_checkpoint (env : SyncEnv) (fs : FS)
    (hpre : preTapOk env fs = true) (hexit : env.tapExit ≠ 0) :
    (sync_connection env fs).result
        = .error (.tapError (.tapFailed env.tapExit
            (String.intercalate "\n" env.tapStderr)))
    ∧ (sync_connection env fs).fs.stateFile = fs.stateFile := by
  obtain ⟨catFile, hcf, heq⟩ := sync_reaches_tap env fs hpre
  rw [heq, syncAfterCatalog_tap_error env _ _ (preTapOk_updateCatalogOk env fs hpre)
    (validate_snd_isAbsent env.config) hcf hexit]
  exact ⟨rfl, rfl⟩

/-- C1 witness: a concrete run whose extractor exits 1 with two diagnostic
lines; the checkpoint file still holds its prior value. -/
theorem c1_nonzero_exit_witness :
    (preTapOk c1Env sampleFS = true ∧ c1Env.tapExit ≠ 0)
    ∧ ((sync_connection c1Env sampleFS).result
          = .error (.tapError (.tapFailed c1Env.tapExit
              (String.intercalate "\n" c1Env.tapStderr)))
      ∧ (sync_connection c1Env sampleFS).fs.stateFile = sampleFS.stateFile) :=
  ⟨⟨rfl, by decide⟩,
   c1_nonzero_exit_fails_and_preserves_checkpoint c1Env sampleFS rfl (by decide)⟩

/-- C2 (amended): if the extractor exits 0 and the last `STATE` message
observed on the streamed output carries a truthy (non-empty) value `V`,
then — provided the checkpoint write itself succeeds — the checkpoint file
after the run is exactly `V`, with no transformation; later STATE messages
overwrite earlier ones, so only the final observed value is retained.  A
falsy final value (null / absent / empty) leaves the file untouched. -/
theorem c2_final_truthy_state_persisted_verbatim (env : SyncEnv) (fs : FS) (V : Json)
    (hpre : preTapOk env fs = true) (hexit : env.tapExit = 0)
    (hw : env.stateWriteOk = true)
    (hlast : tapLastState env.tapStreamed = V) (htruthy : V.truthy = true) :
    (sync_connection env fs).fs.stateFile = FileContent.json V
    ∧ ∀ (pre : List (Option Json)) (v : Json),
        tapLastState (pre ++ [mkStateLine v]) = v := by
  constructor
  · obtain ⟨catFile, hcf, heq⟩ := sync_reaches_tap env fs hpre
    rw [heq, syncAfterCatalog_success env _ _ (preTapOk_updateCatalogOk env fs hpre)
      (validate_snd_isAbsent env.config) hcf hexit]
    simp [hlast, htruthy, hw]
  · intro pre v
    simp only [tapLastState, List.foldl_append, List.foldl_cons, List.foldl_nil]
    rfl

/-- C2 witness: the amended theorem at a concrete run whose final state
value is the string `"s1"`. -/
theorem c2_final_truthy_state_witness :
    (preTapOk sampleEnv sampleFS = true ∧ sampleEnv.tapExit = 0
      ∧ sampleEnv.stateWriteOk = true
      ∧ tapLastState sampleEnv.tapStreamed = Json.str "s1"
      ∧ (Json.str "s1").truthy = true)
    ∧ ((sync_connection sampleEnv sampleFS).fs.stateFile
          = FileContent.json (Json.str "s1")
      ∧ ∀ (pre : List (Option Json)) (v : Json),
          tapLastState (pre ++ [mkStateLine v]) = v) :=
  ⟨⟨rfl, rfl, rfl, rfl, rfl⟩,
   c2_final_truthy_state_persisted_verbatim sampleEnv sampleFS (Json.str "s1")
     rfl rfl rfl rfl rfl⟩

/-- C2 counterexample: a run in which the extractor exits 0 and the last
(and only) `STATE` message carries the value `{}` — the run completes, yet
the checkpoint file still holds the prior value `"old"` and does not equal
the observed value: the claim as stated fails for falsy state values. -/
theorem c2_counterexample_empty_state_value :
    c2Env.tapExit = 0
    ∧ tapLastState c2Env.tapStreamed = Json.obj []
    ∧ (∃ l ∈ c2Env.tapStreamed, isStateLine l = true)
    ∧ (sync_connection c2Env sampleFS).result
        = .ok ⟨"Sync concluído com sucesso", [], 0⟩
    ∧ (sync_connection c2Env sampleFS).fs.stateFile = FileContent.json (Json.str "old")
    ∧ (sync_connection c2Env sampleFS).fs.stateFile ≠ FileContent.json (Json.obj []) := by
  refine ⟨rfl, rfl, ⟨mkStateLine (Json.obj []), List.mem_singleton_self _, rfl⟩,
    rfl, rfl, ?_⟩
  intro h
  have h2 : FileContent.json (Json.str "old") = FileContent.json (Json.obj []) := h
  injection h2 with h3
  exact Json.noConfusion h3

/-- C6: when a cached catalog file exists the orchestrator performs zero
discovery invocations and reuses the cached file; conversely a run that
invoked discovery at all had no cached catalog file. -/
theorem c6_cached_catalog_skips_discovery (env : SyncEnv) (fs : FS) :
    (fs.catalogFile.isAbsent = false → (sync_connection env fs).discoveryCalls = 0)
    ∧ ((sync_connection env fs).discoveryCalls ≠ 0 → fs.catalogFile.isAbsent = true) := by
  obtain ⟨cf, cat, st⟩ := fs
  rcases cat with _ | _ | j
  · exact ⟨fun h => absurd h (by simp [FileContent.isAbsent]), fun _ => rfl⟩
  · have hdc : (sync_connection env ⟨cf, .unreadable, st⟩).discoveryCalls = 0 := by
      simp only [sync_connection]
      split
      · rfl
      · rfl
    exact ⟨fun _ => hdc, fun h => absurd hdc h⟩
  · have hdc : (sync_connection env ⟨cf, .json j, st⟩).discoveryCalls = 0 := by
      simp only [sync_connection]
      split
      · rfl
      · exact syncAfterCatalog_discoveryCalls env _ 0
    exact ⟨fun _ => hdc, fun h => absurd hdc h⟩

/-- C6 witness: the concrete cached-catalog run performs zero discovery
invocations. -/
theorem c6_cached_catalog_skips_discovery_witness :
    sampleFS.catalogFile.isAbsent = false
    ∧ (sync_connection sampleEnv sampleFS).discoveryCalls = 0 :=
  ⟨rfl, (c6_cached_catalog_skips_discovery sampleEnv sampleFS).1 rfl⟩

/-- C8: for a run that reaches checkpoint saving, a failure to write the
checkpoint file does not make the run fail — the run returns the same
success summary; and a prior checkpoint file that exists but cannot be
read is treated as no prior checkpoint (`initial_state = None`) and is
never fatal. -/
theorem c8_checkpoint_io_errors_nonfatal (env : SyncEnv) (fs : FS)
    (hpre : preTapOk env fs = true) (hexit : env.tapExit = 0) :
    (∃ s, (sync_connection env fs).result = .ok s
        ∧ (sync_connection { env with stateWriteOk := false } fs).result = .ok s)
    ∧ (sync_connection env { fs with stateFile := .unreadable }).initialState = none
    ∧ (∃ s, (sync_connection env { fs with stateFile := .unreadable }).result
          = .ok s) := by
  have hupd := preTapOk_updateCatalogOk env fs hpre
  refine ⟨?_, ?_⟩
  · obtain ⟨catFile, hcf, heq⟩ := sync_reaches_tap env fs hpre
    have hpre' : preTapOk { env with stateWriteOk := false } fs = true := hpre
    obtain ⟨catFile', hcf', heq'⟩ :=
      sync_reaches_tap { env with stateWriteOk := false } fs hpre'
    refine ⟨⟨"Sync concluído com sucesso",
        (process_tap_output (env.tapStreamed ++ env.tapDrained)
          env.user_id env.project_id env.connection_id).2,
        (process_tap_output (env.tapStreamed ++ env.tapDrained)
          env.user_id env.project_id env.connection_id).1.length⟩, ?_, ?_⟩
    · rw [heq, syncAfterCatalog_success env _ _ hupd
        (validate_snd_isAbsent env.config) hcf hexit]
    · rw [heq', syncAfterCatalog_success { env with stateWriteOk := false } _ _ hupd
        (validate_snd_isAbsent env.config) hcf' hexit]
  · have hpre2 : preTapOk env { fs with stateFile := .unreadable } = true := hpre
    obtain ⟨catFile2, hcf2, heq2⟩ := sync_reaches_tap env _ hpre2
    rw [heq2, syncAfterCatalog_success env _ _ hupd
      (validate_snd_isAbsent env.config) hcf2 hexit]
    exact ⟨rfl, ⟨_, rfl⟩⟩

/-- C8 witness: the concrete successful run still succeeds with the same
summary when the checkpoint write fails, and with an unreadable prior
checkpoint file. -/
theorem c8_checkpoint_io_errors_nonfatal_witness :
    (preTapOk sampleEnv sampleFS = true ∧ sampleEnv.tapExit = 0)
    ∧ ((∃ s, (sync_connection sampleEnv sampleFS).result = .ok s
        ∧ (sync_connection { sampleEnv with stateWriteOk := false } sampleFS).result
            = .ok s)
      ∧ (sync_connection sampleEnv
          { sampleFS with stateFile := .unreadable }).initialState = none
      ∧ (∃ s, (sync_connection sampleEnv
            { sampleFS with stateFile := .unreadable }).result = .ok s)) :=
  ⟨⟨rfl, rfl⟩, c8_checkpoint_io_errors_nonfatal sampleEnv sampleFS rfl rfl⟩

/-- C9: every success summary reports a total equal to the sum over all
streams of the per-stream counts, and both equal the number of extracted
records handed to persistence. -/
theorem c9_totals_consistent (env : SyncEnv) (fs : FS) (s : Summary)
    (h : (sync_connection env fs).result = .ok s) :
    s.total_records_processed = countsSum s.streams
    ∧ s.total_records_processed
        = (sync_connection env fs).handedToPersistence.length := by
  rcases sync_ok_shape env fs with ⟨e, he⟩ | ⟨hres, hhand⟩
  · rw [he] at h
    exact absurd h (by simp)
  · rw [hres] at h
    have h2 := SyncResult.ok.inj h
    subst h2
    refine ⟨process_tap_output_length _ _ _ _, ?_⟩
    rw [hhand]

/-- C9 witness: the concrete run's summary (one `orders` record) has a
total of 1, equal to the counts sum and to the persisted-record count. -/
theorem c9_totals_consistent_witness :
    (sync_connection sampleEnv sampleFS).result
        = .ok ⟨"Sync concluído com sucesso", [(Json.str "orders", 1)], 1⟩
    ∧ ((⟨"Sync concluído com sucesso", [(Json.str "orders", 1)], 1⟩ :
          Summary).total_records_processed
          = countsSum [(Json.str "orders", 1)]
      ∧ (⟨"Sync concluído com sucesso", [(Json.str "orders", 1)], 1⟩ :
          Summary).total_records_processed
          = (sync_connection sampleEnv sampleFS).handedToPersistence.length) :=
  ⟨rfl, c9_totals_consistent sampleEnv sampleFS _ rfl⟩

/-- C10: if the last `STATE` message observed during the run carries an
empty or absent (falsy) value — even though a checkpoint message was
observed — the checkpoint file is not written and the prior checkpoint on
disk is left unchanged; a run that reaches extraction with exit code 0
still completes successfully. -/
theorem c10_falsy_final_state_not_persisted (env : SyncEnv) (fs : FS) (V : Json)
    (_hobs : ∃ l ∈ env.tapStreamed, isStateLine l = true)
    (hlast : tapLastState env.tapStreamed = V)
    (hfalsy : V.truthy = false) :
    (sync_connection env fs).fs.stateFile = fs.stateFile
    ∧ (preTapOk env fs = true → env.tapExit = 0 →
        ∃ s, (sync_connection env fs).result = .ok s) := by
  have hf : (tapLastState env.tapStreamed).truthy = false := by
    rw [hlast]; exact hfalsy
  refine ⟨sync_stateFile_unchanged_of_falsy env fs hf, ?_⟩
  intro hpre hexit
  obtain ⟨catFile, hcf, heq⟩ := sync_reaches_tap env fs hpre
  rw [heq, syncAfterCatalog_success env _ _ (preTapOk_updateCatalogOk env fs hpre)
    (validate_snd_isAbsent env.config) hcf hexit]
  exact ⟨_, rfl⟩

/-- C10 witness: a run that observes `STATE` with value `{}` as its last
checkpoint message completes but leaves the prior checkpoint `"old"`. -/
theorem c10_falsy_final_state_witness :
    ((∃ l ∈ c10Env.tapStreamed, isStateLine l = true)
      ∧ tapLastState c10Env.tapStreamed = Json.obj []
      ∧ (Json.obj []).truthy = false)
    ∧ ((sync_connection c10Env sampleFS).fs.stateFile = sampleFS.stateFile
      ∧ (preTapOk c10Env sampleFS = true → c10Env.tapExit = 0 →
          ∃ s, (sync_connection c10Env sampleFS).result = .ok s)) :=
  ⟨⟨⟨mkStateLine (Json.obj []),
      List.mem_cons_of_mem _ (List.mem_singleton_self _), rfl⟩, rfl, rfl⟩,
   c10_falsy_final_state_not_persisted c10Env sampleFS (Json.obj [])
     ⟨mkStateLine (Json.obj []),
       List.mem_cons_of_mem _ (List.mem_singleton_self _), rfl⟩ rfl rfl⟩

end TapExec
